import Mathlib

/-!
Verification of the RunwayGuard risk-scoring core.

Shallow embedding of `src/functions/core_calculations.py` and
`src/functions/core/probabilistic_rri.py`.  Python floats are modelled
as exact rationals (`ℚ`), Python `None`/absent dictionary keys as
`Option`, Python lists of METAR weather-code strings as `List String`.
Random draws (Gaussian / uniform realizations) are passed in explicitly
as parameters, so that properties quantify over every realization.
The transcendental solar-position computation (`calculate_sun_position`)
is abstracted: its two outputs (zenith, azimuth) are inputs to the
embedded `calculate_time_risk_factor`, exactly as the aggregators
consume them.
-/

namespace RunwayGuard

/-- Python `x % m` on numbers (sign follows the divisor): `a - m * floor (a / m)`. -/
def pymod (a m : ℚ) : ℚ := a - m * ((a / m).floor : ℤ)

/-- Python `int(x)`: truncation toward zero. -/
def intTrunc (q : ℚ) : ℤ := if 0 ≤ q then q.floor else -(-q).floor

/-- Python 3 `round(x)` at integer precision: round half to even. -/
def pyRound (q : ℚ) : ℤ :=
  if q - (q.floor : ℤ) < 1/2 then q.floor
  else if 1/2 < q - (q.floor : ℤ) then q.floor + 1
  else if 2 ∣ q.floor then q.floor else q.floor + 1

/-- Embeds `np.clip(x, lo, hi)`. -/
def clip (x lo hi : ℚ) : ℚ := max lo (min x hi)

/-- Decides whether `needle` is a prefix of `hay` (over raw character lists). -/
def listStartsWith : List Char → List Char → Bool
  | [], _ => true
  | _ :: _, [] => false
  | a :: xs, b :: ys => a == b && listStartsWith xs ys

/-- Decides whether `needle` occurs contiguously inside `hay`:
Python's `needle in hay` on strings, over character lists. -/
def listContains (needle : List Char) : List Char → Bool
  | [] => needle.isEmpty
  | b :: rest => listStartsWith needle (b :: rest) || listContains needle rest

/-- Python `needle in hay` for strings. -/
def strContains (hay needle : String) : Bool := listContains needle.toList hay.toList

/-- Python `s.upper()` (ASCII uppercase, which is all the code relies on). -/
def strUpper (s : String) : String := ⟨s.toList.map Char.toUpper⟩

/-- Python `any(needle in c for c in conds)` over a weather-code list. -/
def hasCode (conds : List String) (needle : String) : Bool :=
  conds.any (fun c => strContains c needle)

/-! ## `pressure_alt` / `density_alt` (core_calculations.py lines 282-302) -/

/-- Embeds `pressure_alt`: `field_elev_ft + (29.92 - altim_in_hg) * 1000`. -/
def pressure_alt (field_elev_ft altim_in_hg : ℚ) : ℚ :=
  field_elev_ft + (748/25 - altim_in_hg) * 1000

/-- The density-altitude formula applied by `density_alt` on numeric,
in-range inputs: `int(pa + 120 * (temp_c - isa_temp))` with
`isa_temp = 15 - 2 * (field_elev_ft / 1000)`. -/
def daFormula (field_elev_ft temp_c altim_in_hg : ℚ) : ℤ :=
  intTrunc (pressure_alt field_elev_ft altim_in_hg
    + 120 * (temp_c - (15 - 2 * (field_elev_ft / 1000))))

/-- Embeds `density_alt`.  A `none` argument models a non-numeric Python input
(the `isinstance` guard); the function returns the sentinel `0` for
non-numeric input, for temperature outside −60..50 °C, and for a
computed result outside −1000..20000 ft. -/
def density_alt (field_elev_ft temp_c altim_in_hg : Option ℚ) : ℤ :=
  match field_elev_ft, temp_c, altim_in_hg with
  | some e, some t, some a =>
    if t < -60 ∨ t > 50 then 0
    else if daFormula e t a < -1000 ∨ daFormula e t a > 20000 then 0
    else daFormula e t a
  | _, _, _ => 0

/-! ## `get_rri_category` / `get_status_from_rri` (lines 793-809) -/

def get_rri_category (rri : ℤ) : String :=
  if rri ≤ 25 then "LOW"
  else if rri ≤ 50 then "MODERATE"
  else if rri ≤ 75 then "HIGH"
  else "EXTREME"

def get_status_from_rri (rri : ℤ) : String :=
  if rri ≥ 76 then "NO-GO"
  else if rri > 50 then "CAUTION"
  else "GOOD"

/-- Severity order of the four category labels, for stating monotonicity. -/
def catRank (s : String) : ℕ :=
  if s = "LOW" then 0 else if s = "MODERATE" then 1 else if s = "HIGH" then 2 else 3

/-- Severity order of the three status labels, for stating monotonicity. -/
def statusRank (s : String) : ℕ :=
  if s = "GOOD" then 0 else if s = "CAUTION" then 1 else 2

/-- Bridge between the computable `Rat.floor` used in the executable
definitions and the `Int.floor` of the order theory. -/
theorem ratFloor_eq_intFloor (q : ℚ) : q.floor = ⌊q⌋ := by
  rw [Rat.floor_def, Rat.floor_def']

theorem intTrunc_eq_zero_of_lt_one {q : ℚ} (h0 : 0 ≤ q) (h1 : q < 1) : intTrunc q = 0 := by
  unfold intTrunc
  rw [if_pos h0, ratFloor_eq_intFloor]
  exact Int.floor_eq_zero_iff.mpr ⟨h0, h1⟩

/-- Auxiliary: `catRank ∘ get_rri_category` as a numeric step function. -/
theorem catRank_get_rri_category (x : ℤ) :
    catRank (get_rri_category x) =
      if x ≤ 25 then 0 else if x ≤ 50 then 1 else if x ≤ 75 then 2 else 3 := by
  unfold get_rri_category catRank
  split_ifs <;> simp_all

/-- Auxiliary: `statusRank ∘ get_status_from_rri` as a numeric step function. -/
theorem statusRank_get_status_from_rri (x : ℤ) :
    statusRank (get_status_from_rri x) =
      if x ≥ 76 then 2 else if x > 50 then 1 else 0 := by
  unfold get_status_from_rri statusRank
  split_ifs <;> simp_all

/-- C3: `get_rri_category` maps 0–25 to LOW, 26–50 to MODERATE, 51–75 to HIGH
and 76–100 to EXTREME; `get_status_from_rri` maps ≥76 to NO-GO, 51..75 to
CAUTION and ≤50 to GOOD; both are monotone non-decreasing in the score
(in particular matching the stated boundary table at 0, 25, 26, 50, 51,
75, 76 and 100). -/
theorem rri_category_status_table (s a b : ℤ) (hab : a ≤ b) :
    (0 ≤ s → s ≤ 25 → get_rri_category s = "LOW")
    ∧ (26 ≤ s → s ≤ 50 → get_rri_category s = "MODERATE")
    ∧ (51 ≤ s → s ≤ 75 → get_rri_category s = "HIGH")
    ∧ (76 ≤ s → s ≤ 100 → get_rri_category s = "EXTREME")
    ∧ (76 ≤ s → get_status_from_rri s = "NO-GO")
    ∧ (50 < s → s < 76 → get_status_from_rri s = "CAUTION")
    ∧ (s ≤ 50 → get_status_from_rri s = "GOOD")
    ∧ catRank (get_rri_category a) ≤ catRank (get_rri_category b)
    ∧ statusRank (get_status_from_rri a) ≤ statusRank (get_status_from_rri b) := by
  refine ⟨?_, ?_, ?_, ?_, ?_, ?_, ?_, ?_, ?_⟩
  · intro h1 h2; unfold get_rri_category; rw [if_pos h2]
  · intro h1 h2
    unfold get_rri_category
    rw [if_neg (by omega), if_pos h2]
  · intro h1 h2
    unfold get_rri_category
    rw [if_neg (by omega), if_neg (by omega), if_pos h2]
  · intro h1 h2
    unfold get_rri_category
    rw [if_neg (by omega), if_neg (by omega), if_neg (by omega)]
  · intro h1; unfold get_status_from_rri; rw [if_pos h1]
  · intro h1 h2
    unfold get_status_from_rri
    rw [if_neg (by omega), if_pos h1]
  · intro h1
    unfold get_status_from_rri
    rw [if_neg (by omega), if_neg (by omega)]
  · rw [catRank_get_rri_category, catRank_get_rri_category]
    split_ifs <;> omega
  · rw [statusRank_get_status_from_rri, statusRank_get_status_from_rri]
    split_ifs <;> omega

/-- Witness for C3 at concrete scores 0 ≤ 100. -/
theorem rri_category_status_table_witness :
    (0:ℤ) ≤ 100
    ∧ get_rri_category 0 = "LOW"
    ∧ catRank (get_rri_category 0) ≤ catRank (get_rri_category 100) := by
  have h := rri_category_status_table 0 0 100 (by omega)
  exact ⟨by omega, h.1 (by omega) (by omega), h.2.2.2.2.2.2.2.1⟩

/-- C6 counterexample: at elevation 0 ft, temperature 15 °C and altimeter
29.92 inHg, `density_alt` returns 0 although no rejection condition holds
(inputs numeric, temperature inside −60..50, computed value inside
−1000..20000) — the value 0 is simply the genuine density altitude, so the
sentinel is not returned "exactly when" an input is rejected. -/
theorem density_alt_zero_without_rejection :
    density_alt (some 0) (some 15) (some (748/25)) = 0
    ∧ ¬((15:ℚ) < -60 ∨ (15:ℚ) > 50)
    ∧ ¬(daFormula 0 15 (748/25) < -1000 ∨ daFormula 0 15 (748/25) > 20000) := by
  have hda : daFormula 0 15 (748/25) = 0 := by
    unfold daFormula pressure_alt
    norm_num
    exact intTrunc_eq_zero_of_lt_one le_rfl (by norm_num)
  refine ⟨?_, by norm_num, by rw [hda]; norm_num⟩
  simp only [density_alt]
  rw [if_neg (by norm_num), if_neg (by rw [hda]; norm_num)]
  exact hda

/-- C6 (amended): `density_alt` returns the sentinel 0 whenever an input is
non-numeric, the temperature is outside −60..50 °C, or the computed density
altitude falls outside −1000..20000 ft; on every other numeric input it
returns `int(pressure_alt + 120 * (temp − (15 − 2·elev/1000)))` — a value
that may itself happen to be 0. -/
theorem density_alt_sentinel_spec (e t a : ℚ) :
    ((t < -60 ∨ t > 50) → density_alt (some e) (some t) (some a) = 0)
    ∧ ((daFormula e t a < -1000 ∨ daFormula e t a > 20000) →
        density_alt (some e) (some t) (some a) = 0)
    ∧ (¬(t < -60 ∨ t > 50) → ¬(daFormula e t a < -1000 ∨ daFormula e t a > 20000) →
        density_alt (some e) (some t) (some a) = daFormula e t a)
    ∧ density_alt none (some t) (some a) = 0
    ∧ density_alt (some e) none (some a) = 0
    ∧ density_alt (some e) (some t) none = 0 := by
  refine ⟨?_, ?_, ?_, rfl, rfl, rfl⟩
  · intro h; simp only [density_alt]; rw [if_pos h]
  · intro h
    simp only [density_alt]
    by_cases ht : t < -60 ∨ t > 50
    · rw [if_pos ht]
    · rw [if_neg ht, if_pos h]
  · intro h1 h2
    simp only [density_alt]
    rw [if_neg h1, if_neg h2]

/-- Witness for C6 (amended) at temperature 100 °C (out of range). -/
theorem density_alt_sentinel_spec_witness :
    ((100:ℚ) < -60 ∨ (100:ℚ) > 50)
    ∧ density_alt (some 1000) (some 100) (some (748/25)) = 0 :=
  ⟨by norm_num, (density_alt_sentinel_spec 1000 100 (748/25)).1 (by norm_num)⟩

/-! ## Contributor mapping and `calculate_risk_amplification` (lines 217-251)

The contributors dictionary is modelled by the entries that
`calculate_risk_amplification` actually inspects (the remaining keys the
aggregators record — thermal gradient, turbulence, NOTAM, …, — are never
read back by any code in the module, so they carry no information for the
properties below).  `some s` means the key is present with score `s`
(a Python dict entry is truthy whenever present). -/

structure Contrib where
  tailwind : Option ℚ := none
  crosswind : Option ℚ := none
  gust_differential : Option ℚ := none
  gust_tailwind : Option ℚ := none
  gust_crosswind : Option ℚ := none
  density_altitude_diff : Option ℚ := none
  thunderstorm : Option ℚ := none
  lightning : Option ℚ := none
  low_ceiling : Option ℚ := none
  low_visibility : Option ℚ := none
  icing_conditions : Option ℚ := none
  temperature_performance : Option ℚ := none

/-- Sum of the `score` entries of the wind-domain contributors
(`contributors.get(risk, {}).get("score", 0)`). -/
def windDomainScore (c : Contrib) : ℚ :=
  c.tailwind.getD 0 + c.crosswind.getD 0 + c.gust_differential.getD 0
    + c.gust_tailwind.getD 0 + c.gust_crosswind.getD 0

def weatherDomainScore (c : Contrib) : ℚ :=
  c.thunderstorm.getD 0 + c.lightning.getD 0 + c.low_ceiling.getD 0
    + c.low_visibility.getD 0 + c.icing_conditions.getD 0

def performanceDomainScore (c : Contrib) : ℚ :=
  c.density_altitude_diff.getD 0 + c.temperature_performance.getD 0

/-- The amplification total accumulated before the final `min(·, 25)` cap. -/
def riskAmplificationRaw (c : Contrib) : ℚ :=
  let wind_score := windDomainScore c
  let weather_score := weatherDomainScore c
  let performance_score := performanceDomainScore c
  let active_domains : ℕ :=
    (if wind_score > 20 then 1 else 0) + (if weather_score > 20 then 1 else 0)
      + (if performance_score > 15 then 1 else 0)
  let a0 : ℚ := if 2 ≤ active_domains then min 15 (active_domains * 5) else 0
  let a1 := a0 + (if c.icing_conditions.isSome ∧ c.low_ceiling.isSome then 10 else 0)
  let a2 := a1 + (if c.thunderstorm.isSome ∧ wind_score > 15 then 15 else 0)
  a2 + (if c.density_altitude_diff.getD 0 > 20 ∧ wind_score > 15 then 10 else 0)

/-- Embeds `RiskCorrelationEngine.calculate_risk_amplification` (score component). -/
def calculate_risk_amplification (c : Contrib) : ℚ :=
  min (riskAmplificationRaw c) 25

/-- A contributor set realising the maximal uncapped amplification 50:
three active domains (15) + icing with low ceiling (10) + thunderstorm with
wind score > 15 (15) + density-altitude score > 20 with wind score > 15 (10). -/
def maxAmplContrib : Contrib :=
  { tailwind := some 30, thunderstorm := some 100, icing_conditions := some 25,
    low_ceiling := some 40, density_altitude_diff := some 25 }

theorem riskAmplificationRaw_nonneg (c : Contrib) : 0 ≤ riskAmplificationRaw c := by
  unfold riskAmplificationRaw
  dsimp only
  split_ifs <;> norm_num

/-- C9: for every contributor mapping the amplification score is between 0
and 25 inclusive, although the individual terms can accumulate to 50 before
the final cap (witnessed by `maxAmplContrib`). -/
theorem risk_amplification_bounds (c : Contrib) :
    (0 ≤ calculate_risk_amplification c ∧ calculate_risk_amplification c ≤ 25)
    ∧ riskAmplificationRaw maxAmplContrib = 50
    ∧ calculate_risk_amplification maxAmplContrib = 25 := by
  have hmax : riskAmplificationRaw maxAmplContrib = 50 := by
    unfold riskAmplificationRaw maxAmplContrib
    unfold windDomainScore weatherDomainScore performanceDomainScore
    norm_num
  refine ⟨⟨?_, min_le_right _ _⟩, hmax, ?_⟩
  · exact le_min (riskAmplificationRaw_nonneg c) (by norm_num)
  · unfold calculate_risk_amplification
    rw [hmax]
    norm_num

/-! ## METAR data and the individual factor functions -/

/-- One entry of `metar_data["cloud_layers"]`; only its `"type"` value is
ever read (`BKN`/`OVC`/`SCT`/…). -/
structure CloudLayer where
  layerType : String

/-- The slice of `metar_data` read by the risk calculations. -/
structure Metar where
  temp_c : Option ℚ := none
  dewpoint_c : Option ℚ := none
  weather : List String := []
  ceiling : Option ℚ := none
  visibility : Option ℚ := none
  cloud_layers : List CloudLayer := []

/-- The `historical_trend` dictionary. -/
structure Trend where
  pressure_trend : Option ℚ := none
  temp_trend : Option ℚ := none

/-- Abstracted solar geometry for `calculate_time_risk_factor`: `zenith` and
`azimuth` stand for the outputs of the transcendental
`calculate_sun_position(lat, lon, utcnow)`, and the record is present
exactly when `lat`, `lon` and `rwy_heading` are all non-`None`. -/
structure Solar where
  zenith : ℚ
  azimuth : ℚ
  rwy_heading : ℚ

/-- Embeds `time_factors.calculate_time_risk_factor` (its `time_risk_points`
output), over the abstracted solar position. -/
def calculate_time_risk_factor (s : Solar) : ℚ :=
  let time_period : String :=
    if s.zenith < 90 then (if s.zenith > 80 then "TWILIGHT" else "DAY") else "NIGHT"
  let base : ℚ := if time_period = "NIGHT" then 20
    else if time_period = "TWILIGHT" then 15 else 0
  let glare : ℚ :=
    if s.zenith < 90 then
      let rwy_azimuth := pymod (90 - s.rwy_heading) 360
      let angle_diff :=
        min (pymod (rwy_azimuth - s.azimuth) 360) (pymod (s.azimuth - rwy_azimuth) 360)
      if angle_diff ≤ 15 ∧ s.zenith ≤ 20 then 25
      else if angle_diff ≤ 30 ∧ s.zenith ≤ 30 then 15
      else 0
    else 0
  min (base + glare) 30

def wxTS : String := "TS"
def wxLTG : String := "LTG"
def wxGR : String := "GR"
def wxFC : String := "FC"
def wxFZ : String := "FZ"
def wxSH : String := "SH"
def wxFG : String := "FG"
def wxBR : String := "BR"
def wxHZ : String := "HZ"
def wxDU : String := "DU"
def wxSA : String := "SA"
def wxDS : String := "DS"
def wxVA : String := "VA"
def wxSQ : String := "SQ"
def wxIC : String := "IC"
def wxPL : String := "PL"
def wxSN : String := "SN"
def wxRA : String := "RA"
def wxFZRA : String := "FZRA"
def wxPlus : String := "+"

/-- Embeds `calculate_icing_risk` (score component, lines 316-348). -/
def calculate_icing_risk (temp_c : ℚ) (m : Metar) : ℚ :=
  let cloudy := m.cloud_layers.any (fun l => l.layerType = "BKN" ∨ l.layerType = "OVC")
  let s1 : ℚ := if hasCode m.weather wxFZ then 30 else 0
  let s2 : ℚ :=
    if -10 ≤ temp_c ∧ temp_c ≤ 2 ∧ cloudy then
      (if 0 ≤ temp_c ∧ temp_c ≤ 2 then 25 else 20)
    else 0
  let s3 : ℚ := match m.dewpoint_c with
    | some d =>
      if temp_c - d ≤ 3 ∧ -5 ≤ temp_c ∧ temp_c ≤ 5 ∧ cloudy then 15 else 0
    | none => 0
  let s4 : ℚ := if hasCode m.weather wxIC ∨ hasCode m.weather wxPL then 20 else 0
  min (s1 + s2 + s3 + s4) 30

/-- Embeds `calculate_temperature_performance_risk` (lines 350-372). -/
def calculate_temperature_performance_risk (temp_c da_diff : ℚ) : ℚ :=
  let s1 : ℚ := if temp_c > 35 then 15 else if temp_c > 30 then 10 else 0
  let s2 : ℚ := if temp_c < -20 then 15 else if temp_c < -10 then 10 else 0
  let s3 : ℚ := if temp_c > 30 ∧ da_diff > 1000 then 10 else 0
  min (s1 + s2 + s3) 25

/-- Embeds `calculate_wind_shear_risk` (lines 374-388). -/
def calculate_wind_shear_risk (m : Metar) : ℚ :=
  min ((if hasCode m.weather wxTS then (25:ℚ) else 0)
    + (if hasCode m.weather wxSH then 15 else 0)) 25

/-- Embeds `parse_enhanced_weather_conditions` (lines 390-416, uncapped). -/
def parse_enhanced_weather_conditions (m : Metar) : ℚ :=
  (if hasCode m.weather wxFG then (15:ℚ) else 0)
  + (if hasCode m.weather wxBR ∨ hasCode m.weather wxHZ then 5 else 0)
  + (if hasCode m.weather wxDU ∨ hasCode m.weather wxSA ∨ hasCode m.weather wxDS then 20 else 0)
  + (if hasCode m.weather wxVA then 100 else 0)
  + (if hasCode m.weather wxSQ then 30 else 0)

/-- Embeds `AdvancedAtmosphericModel.calculate_thermal_gradient_risk` (lines 30-45). -/
def calculate_thermal_gradient_risk (temp_c : ℚ) (dewpoint_c : Option ℚ)
    (time_of_day : String) : ℚ :=
  match dewpoint_c with
  | none => min 0 20
  | some d =>
    let spread := temp_c - d
    let s1 : ℚ := if temp_c > 25 ∧ spread > 10
        ∧ (time_of_day = "afternoon" ∨ time_of_day = "midday") then 15 else 0
    let s2 : ℚ := if temp_c < 5 ∧ spread < 3
        ∧ (time_of_day = "early_morning" ∨ time_of_day = "late_evening") then 10 else 0
    min (s1 + s2) 20

/-- Embeds `AdvancedAtmosphericModel.calculate_stability_index` (lines 47-65). -/
def calculate_stability_index (temp_c : ℚ) (dewpoint_c : Option ℚ)
    (wind_speed : ℚ) : ℚ :=
  match dewpoint_c with
  | none => min 0 30
  | some d =>
    let spread := temp_c - d
    let convective_risk : ℚ := min 25 ((30 - temp_c + (5 - spread)) * 2)
    let s1 : ℚ := if temp_c > 20 ∧ spread < 5 ∧ convective_risk > 0 then convective_risk else 0
    let s2 : ℚ := if wind_speed > 20 ∧ spread > 15 then 10 else 0
    min (s1 + s2) 30

/-- Embeds `PerformanceRiskAnalyzer.calculate_runway_performance_risk`
(lines 70-120). -/
def calculate_runway_performance_risk (runway_length : Option ℚ) (da_diff : ℚ)
    (contamination : String) : ℚ :=
  match runway_length with
  | none =>
    if da_diff > 2000 then 15 else if da_diff > 1000 then 10
    else if da_diff > 500 then 5 else 0
  | some rl =>
    let mult : ℚ :=
      if contamination = "dry" then 1
      else if contamination = "wet" then 23/20
      else if contamination = "standing_water" then 7/5
      else if contamination = "slush" then 8/5
      else if contamination = "snow" then 9/5
      else if contamination = "ice" then 11/5
      else 1
    let er0 := rl / mult
    let er := if da_diff > 1000 then er0 / (1 + da_diff / 10000) else er0
    let s1 : ℚ := if da_diff > 1000 then
        (if da_diff > 3000 then 20 else if da_diff > 2000 then 15 else 0)
      else 0
    let s2 : ℚ := if er < 2000 then 30 else if er < 2500 then 20
      else if er < 3000 then 10 else 0
    min (s1 + s2) 35

/-- Heavy-precipitation code table of
`WeatherRiskAnalyzer.calculate_precipitation_intensity_risk`, in the
dictionary's insertion order. -/
def heavyPrecipTable : List (String × ℚ) :=
  [("+RA", 20), ("+SN", 25), ("+TSRA", 35), ("+FZRA", 40), ("+PL", 30), ("+GR", 50)]

def moderatePrecipTable : List (String × ℚ) :=
  [("RA", 8), ("SN", 12), ("TSRA", 18), ("FZRA", 25), ("PL", 15)]

def lightPrecipTable : List (String × ℚ) :=
  [("-RA", 3), ("-SN", 5), ("-FZRA", 15)]

/-- Points one weather condition contributes in
`calculate_precipitation_intensity_risk`: the first matching heavy code,
else the first matching moderate code, else the first matching light code
(the `for … break / for-else` structure of lines 161-178). -/
def precipPointsOf (cond : String) : ℚ :=
  match heavyPrecipTable.find? (fun p => strContains cond p.1) with
  | some p => p.2
  | none =>
    match moderatePrecipTable.find? (fun p => strContains cond p.1) with
    | some p => p.2
    | none =>
      match lightPrecipTable.find? (fun p => strContains cond p.1) with
      | some p => p.2
      | none => 0

/-- Embeds `calculate_precipitation_intensity_risk` (lines 133-180). -/
def calculate_precipitation_intensity_risk (weather : List String) : ℚ :=
  min ((weather.map precipPointsOf).sum) 50

/-- Embeds `WeatherRiskAnalyzer.calculate_turbulence_risk` (lines 182-211). -/
def calculate_turbulence_risk (wind_speed wind_gust terrain_factor : ℚ) : ℚ :=
  let s1 : ℚ :=
    if wind_gust > 0 then
      let gust_factor := wind_gust / max wind_speed 1
      if gust_factor > 2 then 20
      else if gust_factor > 3/2 then 15
      else if gust_factor > 13/10 then 10
      else 0
    else 0
  let s2 : ℚ := if wind_speed > 25 then 15 else if wind_speed > 20 then 10 else 0
  let s3 : ℚ := if terrain_factor > 1 then ((intTrunc ((terrain_factor - 1) * 20) : ℤ) : ℚ) else 0
  min (s1 + s2 + s3) 25

/-- Embeds `PredictiveRiskModel.calculate_trend_risk` (lines 256-280);
`current_hour` models `datetime.utcnow().hour`. -/
def calculate_trend_risk (m : Metar) (historical_trend : Option Trend)
    (current_hour : ℕ) : ℚ :=
  match historical_trend with
  | none => 0
  | some t =>
    let s1 : ℚ := match t.pressure_trend with
      | some pt =>
        if pt ≠ 0 then (if pt < -1/10 then 15 else if pt < -1/20 then 8 else 0) else 0
      | none => 0
    let s2 : ℚ := match t.temp_trend with
      | some tt =>
        if tt ≠ 0 ∧ 14 ≤ current_hour ∧ current_hour < 18 ∧ tt > 3
            ∧ m.temp_c.getD 0 > 25 then 10 else 0
      | none => 0
    min (s1 + s2) 20

/-- NOTAM keyword tables of `parse_notam_risks` (lines 418-445). -/
def notamHtmlIndicators : List String :=
  ["<!DOCTYPE", "<HTML>", "INVALID QUERY", "ERROR", "<TITLE>"]

def notamContamKeywords : List String := ["SNOW", "ICE", "SLUSH", "WET", "CONTAMINATED"]

def kwNOTAM : String := "NOTAM"
def kwICE : String := "ICE"
def kwSLUSH : String := "SLUSH"
def kwSNOW : String := "SNOW"
def kwWET : String := "WET"
def kwSTANDINGWATER : String := "STANDING WATER"

def notamNavKeywords : List String := ["ILS", "PAPI", "VASI", "LIGHTS", "BEACON"]

def notamConstructionKeywords : List String := ["CONSTRUCTION", "OBSTACLE", "WORK IN PROGRESS"]

/-- Python `s.strip()` on a character list. -/
def stripChars (l : List Char) : List Char :=
  ((l.dropWhile Char.isWhitespace).reverse.dropWhile Char.isWhitespace).reverse

/-- Embeds `parse_notam_risks` (score component).  The input models the NOTAM
dictionary's `raw_text` (`none` for a falsy `notam_data`); callers in the
module always pass either `None` or a dict. -/
def parse_notam_risks (notam_raw_text : Option String) : ℚ :=
  match notam_raw_text with
  | none => 0
  | some raw =>
    let text := strUpper raw
    if notamHtmlIndicators.any (fun k => strContains text k) then 0
    else if (stripChars text.toList).length < 50 ∨ ¬ strContains text kwNOTAM then 0
    else
      min ((if notamContamKeywords.any (fun k => strContains text k) then (20:ℚ) else 0)
        + (if notamNavKeywords.any (fun k => strContains text k) then 10 else 0)
        + (if notamConstructionKeywords.any (fun k => strContains text k) then 15 else 0)) 25

/-- The contamination classification of `calculate_advanced_rri`
(lines 528-542). -/
def contaminationOf (m : Metar) (notam_raw_text : Option String) : String :=
  if hasCode m.weather wxSN then "snow"
  else if hasCode m.weather wxFZRA then "ice"
  else if hasCode m.weather wxRA then "wet"
  else match notam_raw_text with
    | some raw =>
      let text := strUpper raw
      if strContains text kwICE ∨ strContains text kwSLUSH then "ice"
      else if strContains text kwSNOW then "snow"
      else if strContains text kwWET ∨ strContains text kwSTANDINGWATER then "wet"
      else "dry"
    | none => "dry"

/-- The `time_of_day` classification of `calculate_advanced_rri`
(lines 465-475), from `datetime.utcnow().hour`. -/
def timeOfDayOf (current_hour : ℕ) : String :=
  if 6 ≤ current_hour ∧ current_hour < 10 then "early_morning"
  else if 10 ≤ current_hour ∧ current_hour < 14 then "midday"
  else if 14 ≤ current_hour ∧ current_hour < 18 then "afternoon"
  else if 18 ≤ current_hour ∧ current_hour < 22 then "evening"
  else "late_evening"

/-! ## The two aggregators, `calculate_rri` and `calculate_advanced_rri`

Both functions accumulate `score` and `contributors` through the same
guarded-addition pattern (`if factor_score > 0: contributors[…] = …;
score += factor_score`), with two hard overrides (`score = 100`).  Each
textual block of the Python bodies is one `…Step` function on the running
state, and the aggregator is the composition of its blocks in source
order. -/

/-- The running state `(score, contributors)` of an aggregator body. -/
structure RS where
  score : ℚ
  contrib : Contrib

/-- One guarded addition: `if x > 0: contributors[key] = {"score": x, …};
score += x`. -/
def addPos (st : RS) (x : ℚ) (f : ℚ → Contrib → Contrib) : RS :=
  if 0 < x then ⟨st.score + x, f x st.contrib⟩ else st

/-- The full input slice of both aggregators.  `solar` is present iff
`lat`, `lon` and `rwy_heading` are all non-`None`; `current_hour` models
`datetime.utcnow().hour`; the advanced-only parameters are ignored by the
basic variant.  `notam` is the NOTAM dictionary's `raw_text` (or `none`). -/
structure RriIn where
  head : ℚ := 0
  cross : ℚ := 0
  gust_head : ℚ := 0
  gust_cross : ℚ := 0
  wind_speed : ℚ := 0
  wind_gust : ℚ := 0
  is_head : Bool := true
  gust_is_head : Bool := true
  da_diff : ℚ := 0
  metar : Metar := {}
  solar : Option Solar := none
  notam : Option String := none
  runway_length : Option ℚ := none
  terrain_factor : ℚ := 1
  historical_trend : Option Trend := none
  current_hour : ℕ := 0

/-- Lines 483-487 / 667-671: tailwind. -/
def tailwindStep (inp : RriIn) (st : RS) : RS :=
  if inp.is_head then st
  else addPos st (min 30 (inp.head * 6)) (fun v c => { c with tailwind := some v })

/-- Lines 488-492 / 672-676: crosswind. -/
def crosswindStep (inp : RriIn) (st : RS) : RS :=
  if inp.cross > 0 then
    addPos st (min 30 (inp.cross / 15 * 30)) (fun v c => { c with crosswind := some v })
  else st

/-- Lines 494-510 / 678-694: gust differential, gust tailwind, gust
crosswind (all inside `if wind_gust > 0`). -/
def gustStep (inp : RriIn) (st : RS) : RS :=
  if inp.wind_gust > 0 then
    let st1 := addPos st (min 20 ((inp.wind_gust - inp.wind_speed) / 10 * 20))
      (fun v c => { c with gust_differential := some v })
    let st2 := if inp.gust_is_head then st1
      else addPos st1 (min 10 (inp.gust_head / 10 * 10))
        (fun v c => { c with gust_tailwind := some v })
    if inp.gust_cross > 0 then
      addPos st2 (min 10 (inp.gust_cross / 20 * 10))
        (fun v c => { c with gust_crosswind := some v })
    else st2
  else st

/-- Lines 512-516 / 696-700: density-altitude differential. -/
def daStep (inp : RriIn) (st : RS) : RS :=
  if inp.da_diff > 0 then
    addPos st (min 30 (inp.da_diff / 2000 * 30))
      (fun v c => { c with density_altitude_diff := some v })
  else st

/-- Lines 518-521 (advanced only): thermal gradient. -/
def thermalStep (inp : RriIn) (st : RS) : RS :=
  addPos st (calculate_thermal_gradient_risk (inp.metar.temp_c.getD 15)
    inp.metar.dewpoint_c (timeOfDayOf inp.current_hour)) (fun _ c => c)

/-- Lines 523-526 (advanced only): atmospheric stability. -/
def stabilityStep (inp : RriIn) (st : RS) : RS :=
  addPos st (calculate_stability_index (inp.metar.temp_c.getD 15)
    inp.metar.dewpoint_c inp.wind_speed) (fun _ c => c)

/-- Lines 528-547 (advanced only): runway performance with contamination. -/
def runwayPerfStep (inp : RriIn) (st : RS) : RS :=
  addPos st (calculate_runway_performance_risk inp.runway_length inp.da_diff
    (contaminationOf inp.metar inp.notam)) (fun _ c => c)

/-- Lines 549-552 (advanced only): precipitation intensity. -/
def precipStep (inp : RriIn) (st : RS) : RS :=
  addPos st (calculate_precipitation_intensity_risk inp.metar.weather) (fun _ c => c)

/-- Lines 554-557 (advanced only): turbulence. -/
def turbulenceStep (inp : RriIn) (st : RS) : RS :=
  addPos st (calculate_turbulence_risk inp.wind_speed inp.wind_gust
    inp.terrain_factor) (fun _ c => c)

/-- Lines 559-563 (advanced only): trend analysis (only when
`historical_trend` is truthy). -/
def trendStep (inp : RriIn) (st : RS) : RS :=
  match inp.historical_trend with
  | some _ =>
    addPos st (calculate_trend_risk inp.metar inp.historical_trend inp.current_hour)
      (fun _ c => c)
  | none => st

/-- Lines 565-569 / 702-706: time-of-day risk. -/
def timeStep (inp : RriIn) (st : RS) : RS :=
  match inp.solar with
  | some s => addPos st (calculate_time_risk_factor s) (fun _ c => c)
  | none => st

/-- Lines 571-574 / 708-711: icing. -/
def icingStep (inp : RriIn) (st : RS) : RS :=
  addPos st (calculate_icing_risk (inp.metar.temp_c.getD 15) inp.metar)
    (fun v c => { c with icing_conditions := some v })

/-- Lines 576-579 / 713-716: temperature performance. -/
def tempPerfStep (inp : RriIn) (st : RS) : RS :=
  addPos st (calculate_temperature_performance_risk (inp.metar.temp_c.getD 15)
    inp.da_diff) (fun v c => { c with temperature_performance := some v })

/-- Lines 581-584 / 718-721: wind shear. -/
def windShearStep (inp : RriIn) (st : RS) : RS :=
  addPos st (calculate_wind_shear_risk inp.metar) (fun _ c => c)

/-- Lines 586-593 / 723-730: enhanced weather; a score ≥ 100 (volcanic
ash) hard-sets the running total to 100. -/
def enhancedStep (inp : RriIn) (st : RS) : RS :=
  let e := parse_enhanced_weather_conditions inp.metar
  if 0 < e then
    (if 100 ≤ e then { st with score := 100 } else { st with score := st.score + e })
  else st

/-- Lines 595-598 (advanced) / 786-789 (basic): NOTAM risks. -/
def notamStep (inp : RriIn) (st : RS) : RS :=
  addPos st (parse_notam_risks inp.notam) (fun _ c => c)

/-- Lines 600-602 / 736-738: thunderstorm override (`score = 100`). -/
def tsStep (inp : RriIn) (st : RS) : RS :=
  if hasCode inp.metar.weather wxTS then
    ⟨100, { st.contrib with thunderstorm := some 100 }⟩
  else st

/-- Lines 604-606 / 740-742: lightning (+25, unguarded). -/
def ltgStep (inp : RriIn) (st : RS) : RS :=
  if hasCode inp.metar.weather wxLTG then
    ⟨st.score + 25, { st.contrib with lightning := some 25 }⟩
  else st

/-- Lines 608-620 / 744-756: ceiling tiers (only while `score < 100`). -/
def ceilingStep (inp : RriIn) (st : RS) : RS :=
  if st.score < 100 then
    match inp.metar.ceiling with
    | some ceil =>
      addPos st (if ceil < 500 then 40 else if ceil < 1000 then 30
        else if ceil < 2000 then 20 else if ceil < 3000 then 10 else 0)
        (fun v c => { c with low_ceiling := some v })
    | none => st
  else st

/-- Lines 622-634 / 758-770: visibility tiers (only while `score < 100`). -/
def visStep (inp : RriIn) (st : RS) : RS :=
  if st.score < 100 then
    match inp.metar.visibility with
    | some vis =>
      addPos st (if vis < 1 then 40 else if vis < 2 then 30
        else if vis < 3 then 20 else if vis < 5 then 10 else 0)
        (fun v c => { c with low_visibility := some v })
    | none => st
  else st

/-- Lines 636-648 / 772-784: hail, funnel cloud (override to 100),
freezing precipitation and heavy-precipitation marker; the `score < 100`
guard is evaluated once for the whole block. -/
def hailBlockStep (inp : RriIn) (st : RS) : RS :=
  if st.score < 100 then
    let s1 := if hasCode inp.metar.weather wxGR then { st with score := st.score + 40 } else st
    let s2 := if hasCode inp.metar.weather wxFC then { s1 with score := 100 } else s1
    let s3 := if hasCode inp.metar.weather wxFZ then { s2 with score := s2.score + 30 } else s2
    if hasCode inp.metar.weather wxPlus then { s3 with score := s3.score + 20 } else s3
  else st

/-- Lines 650-653 (advanced only): the final amplification pass over the
accumulated contributors. -/
def amplificationStep (st : RS) : RS :=
  addPos st (calculate_risk_amplification st.contrib) (fun _ c => c)

/-- The state produced by the body of `calculate_rri` (lines 657-789),
blocks composed in source order. -/
def basicRS (inp : RriIn) : RS :=
  notamStep inp (hailBlockStep inp (visStep inp (ceilingStep inp (ltgStep inp
    (tsStep inp (enhancedStep inp (windShearStep inp (tempPerfStep inp
      (icingStep inp (timeStep inp (daStep inp (gustStep inp (crosswindStep inp
        (tailwindStep inp ⟨0, {}⟩))))))))))))))

/-- Embeds `calculate_rri` (score component): `round(min(100, total))`. -/
def calculate_rri (inp : RriIn) : ℤ := pyRound (min 100 (basicRS inp).score)

/-- The state produced by the body of `calculate_advanced_rri`
(lines 447-655), blocks composed in source order. -/
def advancedRS (inp : RriIn) : RS :=
  amplificationStep (hailBlockStep inp (visStep inp (ceilingStep inp (ltgStep inp
    (tsStep inp (notamStep inp (enhancedStep inp (windShearStep inp (tempPerfStep inp
      (icingStep inp (timeStep inp (trendStep inp (turbulenceStep inp (precipStep inp
        (runwayPerfStep inp (stabilityStep inp (thermalStep inp (daStep inp
          (gustStep inp (crosswindStep inp (tailwindStep inp ⟨0, {}⟩)))))))))))))))))))))

/-- Embeds `calculate_advanced_rri` (score component): `round(min(100, total))`. -/
def calculate_advanced_rri (inp : RriIn) : ℤ := pyRound (min 100 (advancedRS inp).score)

/-! ## Score invariants of the aggregation pipeline -/

theorem addPos_nonneg (st : RS) (x : ℚ) (f : ℚ → Contrib → Contrib)
    (h : 0 ≤ st.score) : 0 ≤ (addPos st x f).score := by
  unfold addPos
  split
  · next hx => exact add_nonneg h (le_of_lt hx)
  · exact h

theorem addPos_le (st : RS) (x : ℚ) (f : ℚ → Contrib → Contrib) :
    st.score ≤ (addPos st x f).score := by
  unfold addPos
  split
  · next hx => exact le_add_of_nonneg_right (le_of_lt hx)
  · exact le_refl _

theorem tailwindStep_nonneg (inp : RriIn) (st : RS) (h : 0 ≤ st.score) :
    0 ≤ (tailwindStep inp st).score := by
  unfold tailwindStep
  split
  · exact h
  · exact addPos_nonneg _ _ _ h

theorem crosswindStep_nonneg (inp : RriIn) (st : RS) (h : 0 ≤ st.score) :
    0 ≤ (crosswindStep inp st).score := by
  unfold crosswindStep
  split
  · exact addPos_nonneg _ _ _ h
  · exact h

theorem gustStep_nonneg (inp : RriIn) (st : RS) (h : 0 ≤ st.score) :
    0 ≤ (gustStep inp st).score := by
  unfold gustStep
  split
  · dsimp only
    split
    · apply addPos_nonneg
      split
      · exact addPos_nonneg _ _ _ h
      · exact addPos_nonneg _ _ _ (addPos_nonneg _ _ _ h)
    · split
      · exact addPos_nonneg _ _ _ h
      · exact addPos_nonneg _ _ _ (addPos_nonneg _ _ _ h)
  · exact h

theorem daStep_nonneg (inp : RriIn) (st : RS) (h : 0 ≤ st.score) :
    0 ≤ (daStep inp st).score := by
  unfold daStep
  split
  · exact addPos_nonneg _ _ _ h
  · exact h

theorem thermalStep_nonneg (inp : RriIn) (st : RS) (h : 0 ≤ st.score) :
    0 ≤ (thermalStep inp st).score := addPos_nonneg _ _ _ h

theorem stabilityStep_nonneg (inp : RriIn) (st : RS) (h : 0 ≤ st.score) :
    0 ≤ (stabilityStep inp st).score := addPos_nonneg _ _ _ h

theorem runwayPerfStep_nonneg (inp : RriIn) (st : RS) (h : 0 ≤ st.score) :
    0 ≤ (runwayPerfStep inp st).score := addPos_nonneg _ _ _ h

theorem precipStep_nonneg (inp : RriIn) (st : RS) (h : 0 ≤ st.score) :
    0 ≤ (precipStep inp st).score := addPos_nonneg _ _ _ h

theorem turbulenceStep_nonneg (inp : RriIn) (st : RS) (h : 0 ≤ st.score) :
    0 ≤ (turbulenceStep inp st).score := addPos_nonneg _ _ _ h

theorem trendStep_nonneg (inp : RriIn) (st : RS) (h : 0 ≤ st.score) :
    0 ≤ (trendStep inp st).score := by
  unfold trendStep
  split
  · exact addPos_nonneg _ _ _ h
  · exact h

theorem timeStep_nonneg (inp : RriIn) (st : RS) (h : 0 ≤ st.score) :
    0 ≤ (timeStep inp st).score := by
  unfold timeStep
  split
  · exact addPos_nonneg _ _ _ h
  · exact h

theorem icingStep_nonneg (inp : RriIn) (st : RS) (h : 0 ≤ st.score) :
    0 ≤ (icingStep inp st).score := addPos_nonneg _ _ _ h

theorem tempPerfStep_nonneg (inp : RriIn) (st : RS) (h : 0 ≤ st.score) :
    0 ≤ (tempPerfStep inp st).score := addPos_nonneg _ _ _ h

theorem windShearStep_nonneg (inp : RriIn) (st : RS) (h : 0 ≤ st.score) :
    0 ≤ (windShearStep inp st).score := addPos_nonneg _ _ _ h

theorem enhancedStep_nonneg (inp : RriIn) (st : RS) (h : 0 ≤ st.score) :
    0 ≤ (enhancedStep inp st).score := by
  unfold enhancedStep
  dsimp only
  split
  · next he =>
    split
    · norm_num
    · exact add_nonneg h (le_of_lt he)
  · exact h

theorem notamStep_nonneg (inp : RriIn) (st : RS) (h : 0 ≤ st.score) :
    0 ≤ (notamStep inp st).score := addPos_nonneg _ _ _ h

theorem tsStep_nonneg (inp : RriIn) (st : RS) (h : 0 ≤ st.score) :
    0 ≤ (tsStep inp st).score := by
  unfold tsStep
  split
  · norm_num
  · exact h

theorem ltgStep_nonneg (inp : RriIn) (st : RS) (h : 0 ≤ st.score) :
    0 ≤ (ltgStep inp st).score := by
  unfold ltgStep
  split
  · dsimp only; linarith
  · exact h

theorem ceilingStep_nonneg (inp : RriIn) (st : RS) (h : 0 ≤ st.score) :
    0 ≤ (ceilingStep inp st).score := by
  unfold ceilingStep
  split
  · split
    · exact addPos_nonneg _ _ _ h
    · exact h
  · exact h

theorem visStep_nonneg (inp : RriIn) (st : RS) (h : 0 ≤ st.score) :
    0 ≤ (visStep inp st).score := by
  unfold visStep
  split
  · split
    · exact addPos_nonneg _ _ _ h
    · exact h
  · exact h

theorem hailBlockStep_nonneg (inp : RriIn) (st : RS) (h : 0 ≤ st.score) :
    0 ≤ (hailBlockStep inp st).score := by
  unfold hailBlockStep
  split
  · split_ifs <;> simp only [RS.score] <;> linarith
  · exact h

theorem amplificationStep_nonneg (st : RS) (h : 0 ≤ st.score) :
    0 ≤ (amplificationStep st).score := addPos_nonneg _ _ _ h

theorem basicRS_nonneg (inp : RriIn) : 0 ≤ (basicRS inp).score := by
  unfold basicRS
  apply notamStep_nonneg
  apply hailBlockStep_nonneg
  apply visStep_nonneg
  apply ceilingStep_nonneg
  apply ltgStep_nonneg
  apply tsStep_nonneg
  apply enhancedStep_nonneg
  apply windShearStep_nonneg
  apply tempPerfStep_nonneg
  apply icingStep_nonneg
  apply timeStep_nonneg
  apply daStep_nonneg
  apply gustStep_nonneg
  apply crosswindStep_nonneg
  apply tailwindStep_nonneg
  exact le_refl 0

theorem advancedRS_nonneg (inp : RriIn) : 0 ≤ (advancedRS inp).score := by
  unfold advancedRS
  apply amplificationStep_nonneg
  apply hailBlockStep_nonneg
  apply visStep_nonneg
  apply ceilingStep_nonneg
  apply ltgStep_nonneg
  apply tsStep_nonneg
  apply notamStep_nonneg
  apply enhancedStep_nonneg
  apply windShearStep_nonneg
  apply tempPerfStep_nonneg
  apply icingStep_nonneg
  apply timeStep_nonneg
  apply trendStep_nonneg
  apply turbulenceStep_nonneg
  apply precipStep_nonneg
  apply runwayPerfStep_nonneg
  apply stabilityStep_nonneg
  apply thermalStep_nonneg
  apply daStep_nonneg
  apply gustStep_nonneg
  apply crosswindStep_nonneg
  apply tailwindStep_nonneg
  exact le_refl 0

/-- Lemma: `pyRound` stays inside `[0, 100]` on inputs in `[0, 100]`. -/
theorem pyRound_mem (q : ℚ) (h0 : 0 ≤ q) (h1 : q ≤ 100) :
    0 ≤ pyRound q ∧ pyRound q ≤ 100 := by
  unfold pyRound
  rw [ratFloor_eq_intFloor]
  have hf0 : (0:ℤ) ≤ ⌊q⌋ := by
    rw [Int.le_floor]; exact_mod_cast h0
  have hf1 : ⌊q⌋ ≤ 100 := by
    have := Int.floor_le_floor h1
    simpa using this
  have hfq : (⌊q⌋ : ℚ) ≤ q := Int.floor_le q
  split_ifs with hr1 hr2 hpar
  · exact ⟨hf0, hf1⟩
  · constructor
    · omega
    · have hlt : (⌊q⌋ : ℚ) < 100 := by linarith
      have : ⌊q⌋ < 100 := by exact_mod_cast hlt
      omega
  · exact ⟨hf0, hf1⟩
  · constructor
    · omega
    · have hlt : (⌊q⌋ : ℚ) < 100 := by linarith
      have : ⌊q⌋ < 100 := by exact_mod_cast hlt
      omega

/-! Preservation of an already-reached override total (≥ 100) by every
block that runs after the thunderstorm override. -/

theorem tsStep_score_of_ts (inp : RriIn) (st : RS)
    (h : hasCode inp.metar.weather wxTS = true) : (tsStep inp st).score = 100 := by
  unfold tsStep
  rw [if_pos h]

theorem ltgStep_hundred (inp : RriIn) (st : RS) (h : 100 ≤ st.score) :
    100 ≤ (ltgStep inp st).score := by
  unfold ltgStep
  split
  · show (100:ℚ) ≤ st.score + 25; linarith
  · exact h

theorem ceilingStep_hundred (inp : RriIn) (st : RS) (h : 100 ≤ st.score) :
    100 ≤ (ceilingStep inp st).score := by
  unfold ceilingStep
  split
  · next hlt => exact absurd h (by linarith)
  · exact h

theorem visStep_hundred (inp : RriIn) (st : RS) (h : 100 ≤ st.score) :
    100 ≤ (visStep inp st).score := by
  unfold visStep
  split
  · next hlt => exact absurd h (by linarith)
  · exact h

theorem hailBlockStep_hundred (inp : RriIn) (st : RS) (h : 100 ≤ st.score) :
    100 ≤ (hailBlockStep inp st).score := by
  unfold hailBlockStep
  split
  · next hlt => exact absurd h (by linarith)
  · exact h

theorem notamStep_hundred (inp : RriIn) (st : RS) (h : 100 ≤ st.score) :
    100 ≤ (notamStep inp st).score := le_trans h (addPos_le _ _ _)

theorem amplificationStep_hundred (st : RS) (h : 100 ≤ st.score) :
    100 ≤ (amplificationStep st).score := le_trans h (addPos_le _ _ _)

theorem pyRound_hundred : pyRound 100 = 100 := by
  unfold pyRound
  rw [ratFloor_eq_intFloor]
  norm_num

/-- If the accumulated total is at least 100, the aggregator output is
exactly 100. -/
theorem pyRound_min_hundred (q : ℚ) (h : 100 ≤ q) :
    pyRound (min 100 q) = 100 := by
  rw [min_eq_left h]
  exact pyRound_hundred

theorem basicRS_hundred_of_ts (inp : RriIn)
    (h : hasCode inp.metar.weather wxTS = true) : 100 ≤ (basicRS inp).score := by
  unfold basicRS
  apply notamStep_hundred
  apply hailBlockStep_hundred
  apply visStep_hundred
  apply ceilingStep_hundred
  apply ltgStep_hundred
  rw [tsStep_score_of_ts _ _ h]

theorem advancedRS_hundred_of_ts (inp : RriIn)
    (h : hasCode inp.metar.weather wxTS = true) : 100 ≤ (advancedRS inp).score := by
  unfold advancedRS
  apply amplificationStep_hundred
  apply hailBlockStep_hundred
  apply visStep_hundred
  apply ceilingStep_hundred
  apply ltgStep_hundred
  rw [tsStep_score_of_ts _ _ h]

/-- C1: if any weather-phenomenon code contains `"TS"`, both aggregators
return exactly 100 regardless of every other input — the override hard-sets
the total to 100, every later block (lightning, ceiling/visibility tiers,
hail block, NOTAM, amplification) keeps the total at or above 100, and the
final `round(min(100, total))` collapses it back to exactly 100. -/
theorem thunderstorm_forces_hundred (inp : RriIn)
    (h : hasCode inp.metar.weather wxTS = true) :
    calculate_rri inp = 100 ∧ calculate_advanced_rri inp = 100 := by
  constructor
  · unfold calculate_rri
    exact pyRound_min_hundred _ (basicRS_hundred_of_ts inp h)
  · unfold calculate_advanced_rri
    exact pyRound_min_hundred _ (advancedRS_hundred_of_ts inp h)

/-- A NOTAM text for the thunderstorm example observation. -/
def tsExampleNotamText : String :=
  "NOTAM RWY 09 SNOW AND ICE ON RWY CONSTRUCTION CRANES NEAR ILS ANTENNA"

/-- An observation carrying an active thunderstorm code together with
lightning, a NOTAM and every amplification-relevant factor. -/
def tsExampleIn : RriIn :=
  { head := 12, cross := 20, gust_head := 5, gust_cross := 9, wind_speed := 18,
    wind_gust := 30, is_head := false, gust_is_head := false, da_diff := 2500,
    metar := { temp_c := some 32, dewpoint_c := some 30,
               weather := ["+TSRA", "LTG", "GR"], ceiling := some 400,
               visibility := some (1/2),
               cloud_layers := [⟨"OVC"⟩] },
    notam := some tsExampleNotamText,
    runway_length := some 3000, terrain_factor := 1,
    historical_trend := some { pressure_trend := some (-1/5), temp_trend := some 4 },
    current_hour := 15 }

/-- Witness for C1 on a fully loaded thunderstorm observation. -/
theorem thunderstorm_forces_hundred_witness :
    hasCode tsExampleIn.metar.weather wxTS = true
    ∧ calculate_rri tsExampleIn = 100
    ∧ calculate_advanced_rri tsExampleIn = 100 :=
  ⟨by decide, (thunderstorm_forces_hundred tsExampleIn (by decide)).1,
    (thunderstorm_forces_hundred tsExampleIn (by decide)).2⟩

/-- C2: for every input the two aggregators return an integer score in
`[0, 100]` (no hypotheses on the inputs are needed: every addition in the
pipeline is guarded by a positivity test and the total is finally clamped
by `min(100, ·)` before rounding). -/
theorem rri_score_in_range (inp : RriIn) :
    (0 ≤ calculate_rri inp ∧ calculate_rri inp ≤ 100)
    ∧ (0 ≤ calculate_advanced_rri inp ∧ calculate_advanced_rri inp ≤ 100) := by
  constructor
  · unfold calculate_rri
    exact pyRound_mem _ (le_min (by norm_num) (basicRS_nonneg inp)) (min_le_left _ _)
  · unfold calculate_advanced_rri
    exact pyRound_mem _ (le_min (by norm_num) (advancedRS_nonneg inp)) (min_le_left _ _)

/-! ## Monte Carlo layer (`src/functions/core/probabilistic_rri.py`) -/

theorem pymod_nonneg (a m : ℚ) (hm : 0 < m) : 0 ≤ pymod a m := by
  unfold pymod
  rw [ratFloor_eq_intFloor]
  have h1 : (⌊a / m⌋ : ℚ) ≤ a / m := Int.floor_le _
  have h2 : m * (⌊a / m⌋ : ℚ) ≤ m * (a / m) :=
    mul_le_mul_of_nonneg_left h1 (le_of_lt hm)
  have h3 : m * (a / m) = a := by field_simp
  linarith

theorem pymod_lt (a m : ℚ) (hm : 0 < m) : pymod a m < m := by
  unfold pymod
  rw [ratFloor_eq_intFloor]
  have h1 : a / m < (⌊a / m⌋ : ℚ) + 1 := Int.lt_floor_add_one _
  have h2 : m * (a / m) < m * ((⌊a / m⌋ : ℚ) + 1) := by
    exact (mul_lt_mul_left hm).mpr h1
  have h3 : m * (a / m) = a := by field_simp
  rw [mul_add, mul_one] at h2
  linarith

/-- Embeds `WeatherPerturbationModel` (the dataclass defaults; the `*_std` fields
only scale the Gaussian draws, which this embedding receives directly as
realizations, and the clamp bounds of `__post_init__` appear inline in
`perturb_correlated_weather`). -/
structure WeatherPerturbationModel where
  wind_dir_std : ℚ := 8
  wind_speed_std : ℚ := 3
  temp_std : ℚ := 2
  pressure_std : ℚ := 1/50
  visibility_factor : ℚ := 3/20
  ceiling_factor : ℚ := 1/5
  gust_correlation : ℚ := 17/20

/-- The `base_conditions` dictionary slice used by the perturbation model.
`none` means the key is absent or `None`. -/
structure BaseCond where
  wind_dir : ℚ := 0
  wind_speed : ℚ := 0
  wind_gust : Option ℚ := none
  temp_c : ℚ := 15
  altim_in_hg : Option ℚ := none
  visibility : Option ℚ := none
  ceiling : Option ℚ := none

/-- One realization of all random draws of
`perturb_correlated_weather`: raw `np.random.normal` outputs, the
`random.random() < 0.3` coin and the `random.uniform(3, 8)` value. -/
structure PerturbDraws where
  wind_dir_draw : ℚ := 0
  wind_speed_draw : ℚ := 0
  gust_noise_draw : ℚ := 0
  gust_synth_coin : Bool := false
  gust_synth_draw : ℚ := 0
  temp_draw : ℚ := 0
  pressure_draw : ℚ := 0
  vis_draw : ℚ := 0
  ceiling_draw : ℚ := 0

/-- The regime bias factors (wind_speed, wind_gust, visibility, ceiling)
of `perturb_correlated_weather` (lines 86-101). -/
def biasFactors (scenario_type : String) : ℚ × ℚ × ℚ × ℚ :=
  if scenario_type = "deteriorating" then (3/2, 9/5, 7/10, 4/5)
  else if scenario_type = "improving" then (7/10, 3/5, 13/10, 6/5)
  else (1, 1, 1, 1)

/-- Embeds `AdvancedWeatherPerturber.perturb_correlated_weather` (lines 82-142). -/
def perturb_correlated_weather (model : WeatherPerturbationModel)
    (base : BaseCond) (scenario_type : String) (d : PerturbDraws) : BaseCond :=
  let bias := biasFactors scenario_type
  let wind_dir_delta := clip d.wind_dir_draw (-15) 15
  let wind_speed_delta := clip (d.wind_speed_draw * bias.1) (-5) 8
  let new_speed := max 0 (base.wind_speed + wind_speed_delta)
  let new_gust : Option ℚ :=
    if base.wind_gust.getD 0 > 0 then
      let base_gust_diff := base.wind_gust.getD 0 - base.wind_speed
      let gust_correlation_noise := d.gust_noise_draw * (1 - model.gust_correlation)
      let gust_delta :=
        (wind_speed_delta * model.gust_correlation + gust_correlation_noise) * bias.2.1
      some (new_speed + max 0 (base_gust_diff + gust_delta))
    else if new_speed > 15 ∧ d.gust_synth_coin then some (new_speed + d.gust_synth_draw)
    else base.wind_gust
  { base with
    wind_dir := pymod (base.wind_dir + wind_dir_delta) 360,
    wind_speed := new_speed,
    wind_gust := new_gust,
    temp_c := base.temp_c + clip d.temp_draw (-4) 4,
    altim_in_hg := base.altim_in_hg.map (fun a => a + clip d.pressure_draw (-1/20) (1/20)),
    visibility := base.visibility.map
      (fun v => max (1/4) (v * max (1/10) (1 + d.vis_draw * bias.2.2.1))),
    ceiling := base.ceiling.map
      (fun c => max 100 (c * max (1/10) (1 + d.ceiling_draw * bias.2.2.2))) }

/-- C5: for every base observation, regime tag and realization of the
random draws, the perturbed observation has non-negative wind speed, wind
direction in `[0, 360)`, visibility at least 0.25 SM whenever present, and
ceiling at least 100 ft whenever present. -/
theorem perturbed_weather_in_range (model : WeatherPerturbationModel)
    (base : BaseCond) (scenario_type : String) (d : PerturbDraws) :
    0 ≤ (perturb_correlated_weather model base scenario_type d).wind_speed
    ∧ 0 ≤ (perturb_correlated_weather model base scenario_type d).wind_dir
    ∧ (perturb_correlated_weather model base scenario_type d).wind_dir < 360
    ∧ (∀ v, (perturb_correlated_weather model base scenario_type d).visibility = some v
        → 1/4 ≤ v)
    ∧ (∀ c, (perturb_correlated_weather model base scenario_type d).ceiling = some c
        → 100 ≤ c) := by
  unfold perturb_correlated_weather
  refine ⟨le_max_left _ _, pymod_nonneg _ _ (by norm_num),
    pymod_lt _ _ (by norm_num), ?_, ?_⟩
  · intro v hv
    simp only [Option.map_eq_some'] at hv
    obtain ⟨v0, _, hv0⟩ := hv
    rw [← hv0]
    exact le_max_left _ _
  · intro c hc
    simp only [Option.map_eq_some'] at hc
    obtain ⟨c0, _, hc0⟩ := hc
    rw [← hc0]
    exact le_max_left _ _

/-- The scenario tag for the C5 witness. -/
def scNormal : String := "normal"

/-- A base observation for the C5 witness: visibility present at 1 SM. -/
def perturbWitnessBase : BaseCond :=
  { wind_dir := 270, wind_speed := 10, visibility := some 1 }

/-- Witness for C5: with all draws at zero the perturbed visibility is
1 SM, and the theorem yields the 0.25 SM floor for it. -/
theorem perturbed_weather_in_range_witness :
    (perturb_correlated_weather {} perturbWitnessBase scNormal {}).visibility = some 1
    ∧ (1:ℚ)/4 ≤ 1 := by
  have hvis :
      (perturb_correlated_weather {} perturbWitnessBase scNormal {}).visibility = some 1 := by
    simp only [perturb_correlated_weather, perturbWitnessBase, biasFactors, scNormal]
    norm_num
  exact ⟨hvis,
    (perturbed_weather_in_range {} perturbWitnessBase scNormal {}).2.2.2.1 1 hvis⟩

/-- The regime schedule of `calculate_advanced_probabilistic_rri`
(lines 375-380): draw index below 10 % of the draw count →
"deteriorating", below 20 % → "improving", otherwise "normal". -/
def scenarioTypeOf (num_draws i : ℕ) : String :=
  if (i:ℚ) < (num_draws:ℚ) * (1/10) then "deteriorating"
  else if (i:ℚ) < (num_draws:ℚ) * (2/10) then "improving"
  else "normal"

/-- C4: the regime of draw `i` is a deterministic function of the index
alone: "deteriorating" iff `i < N×0.1`, "improving" iff
`N×0.1 ≤ i < N×0.2`, "normal" iff `N×0.2 ≤ i`, for every `N` and `i`. -/
theorem scenario_schedule (N i : ℕ) :
    (scenarioTypeOf N i = "deteriorating" ↔ (i:ℚ) < (N:ℚ) * (1/10))
    ∧ (scenarioTypeOf N i = "improving" ↔
        ((N:ℚ) * (1/10) ≤ (i:ℚ) ∧ (i:ℚ) < (N:ℚ) * (2/10)))
    ∧ (scenarioTypeOf N i = "normal" ↔ (N:ℚ) * (2/10) ≤ (i:ℚ)) := by
  have hN : (0:ℚ) ≤ (N:ℚ) := Nat.cast_nonneg N
  unfold scenarioTypeOf
  split_ifs with h1 h2
  · refine ⟨⟨fun _ => h1, fun _ => rfl⟩, ?_, ?_⟩
    · simp only [show ("deteriorating" = "improving") = False by simp, false_iff]
      intro hc
      linarith [hc.1]
    · simp only [show ("deteriorating" = "normal") = False by simp, false_iff]
      intro hc
      linarith
  · refine ⟨?_, ?_, ?_⟩
    · simp only [show ("improving" = "deteriorating") = False by simp, false_iff]
      exact h1
    · simp only [show ("improving" = "improving") = True by simp, true_iff]
      exact ⟨not_lt.mp h1, h2⟩
    · simp only [show ("improving" = "normal") = False by simp, false_iff]
      intro hc
      linarith
  · refine ⟨?_, ?_, ?_⟩
    · simp only [show ("normal" = "deteriorating") = False by simp, false_iff]
      exact h1
    · simp only [show ("normal" = "improving") = False by simp, false_iff]
      intro hc
      exact h2 hc.2
    · simp only [show ("normal" = "normal") = True by simp, true_iff]
      exact not_lt.mp h2

/-- The recomputed density-altitude differential of the Monte Carlo draw
loop (lines 393-400): when the perturbed conditions carry an altimeter and
`airport_elevation` is truthy, `new_da_diff = density_alt(elev, temp,
altim) - elev`, otherwise the base `da_diff` is reused. -/
def mcNewDaDiff (altim_present : Bool) (airport_elevation : Option ℚ)
    (temp altim base_da_diff : ℚ) : ℚ :=
  match airport_elevation with
  | some elev =>
    if altim_present ∧ elev ≠ 0 then
      ((density_alt (some elev) (some temp) (some altim) : ℤ) : ℚ) - elev
    else base_da_diff
  | none => base_da_diff

/-- C10: when `density_alt` rejects the perturbed sample (sentinel 0), the
draw is scored with `da_diff = 0 − elevation`, a negative value that makes
the density-altitude factor contribute nothing, instead of reusing the
base sample's `da_diff`. -/
theorem mc_da_diff_sentinel_propagation (elev temp altim base_da_diff : ℚ)
    (helev : 0 < elev)
    (hrej : density_alt (some elev) (some temp) (some altim) = 0) :
    mcNewDaDiff true (some elev) temp altim base_da_diff = -elev
    ∧ mcNewDaDiff true (some elev) temp altim base_da_diff < 0
    ∧ (∀ inp : RriIn, inp.da_diff = -elev → ∀ st : RS, daStep inp st = st) := by
  have hval : mcNewDaDiff true (some elev) temp altim base_da_diff = -elev := by
    unfold mcNewDaDiff
    dsimp only
    rw [if_pos ⟨rfl, ne_of_gt helev⟩, hrej]
    norm_num
  refine ⟨hval, by rw [hval]; linarith, ?_⟩
  intro inp hda st
  unfold daStep
  rw [if_neg (by rw [hda]; linarith)]

/-- Witness for C10: elevation 1000 ft, perturbed temperature 100 °C
(rejected by the −60..50 sanity bound), base `da_diff` 500. -/
theorem mc_da_diff_sentinel_propagation_witness :
    (0:ℚ) < 1000
    ∧ density_alt (some 1000) (some 100) (some (748/25)) = 0
    ∧ mcNewDaDiff true (some 1000) 100 (748/25) 500 = -1000 := by
  have hrej : density_alt (some 1000) (some 100) (some (748/25)) = 0 := by
    simp only [density_alt]
    rw [if_pos (by norm_num)]
  exact ⟨by norm_num, hrej,
    (mc_da_diff_sentinel_propagation 1000 100 (748/25) 500 (by norm_num) hrej).1⟩

/-! ## Temporal scenario generation (lines 148-176)

The hourly temperature offset is genuinely real-valued (`math.sin`), so
this part of the embedding lives in `ℝ`. -/

/-- Embeds `diurnal_temp_change = 3 * math.sin((hour * math.pi) / 12)` of
`generate_temporal_scenarios`. -/
noncomputable def diurnal_temp_change (hour : ℕ) : ℝ :=
  3 * Real.sin (((hour : ℝ) * Real.pi) / 12)

/-- Embeds `scenario["temp_c"] += diurnal_temp_change` at hour `hour`. -/
noncomputable def temporalTempC (base_temp : ℝ) (hour : ℕ) : ℝ :=
  base_temp + diurnal_temp_change hour

/-- C7 counterexample: at hour 6 the code's offset is
`3·sin(6π/12) = 3·sin(π/2) = 3`, while the claimed formula
`3·sin(2π·6/12) = 3·sin(π)` is 0. -/
theorem diurnal_offset_period_counterexample :
    diurnal_temp_change 6 ≠ 3 * Real.sin (2 * Real.pi * 6 / 12) := by
  have h1 : diurnal_temp_change 6 = 3 := by
    unfold diurnal_temp_change
    have harg : (((6:ℕ) : ℝ) * Real.pi) / 12 = Real.pi / 2 := by
      push_cast
      ring
    rw [harg, Real.sin_pi_div_two]
    norm_num
  have h2 : 3 * Real.sin (2 * Real.pi * 6 / 12) = 0 := by
    have harg : 2 * Real.pi * 6 / 12 = Real.pi := by ring
    rw [harg, Real.sin_pi]
    norm_num
  rw [h1, h2]
  norm_num

/-- C7 (amended): the temperature offset applied at hour `h` is
`3 × sin(2π × h / 24)` — a 24-hour-period (diurnal) sinusoid of amplitude
3 °C, not a 12-hour one. -/
theorem diurnal_offset_form (base_temp : ℝ) (h : ℕ) :
    diurnal_temp_change h = 3 * Real.sin (2 * Real.pi * (h : ℝ) / 24)
    ∧ temporalTempC base_temp h = base_temp + 3 * Real.sin (2 * Real.pi * (h : ℝ) / 24) := by
  have harg : (((h:ℕ) : ℝ) * Real.pi) / 12 = 2 * Real.pi * (h : ℝ) / 24 := by ring
  constructor
  · unfold diurnal_temp_change
    rw [harg]
  · unfold temporalTempC diurnal_temp_change
    rw [harg]

/-! ## `StatisticalAnalyzer` (lines 207-283)

The sample population is real-valued; `np.percentile` uses its default
linear-interpolation rule, which is also what the spec prescribes. -/

/-- Ascending sort of the sample list. -/
noncomputable def sortedR (l : List ℝ) : List ℝ :=
  List.insertionSort (fun a b : ℝ => a ≤ b) l

/-- The percentile levels of `calculate_percentiles`' default argument. -/
def percentileLevels : List ℕ := [1, 5, 10, 25, 50, 75, 90, 95, 99]

/-- The `f"p{p:02d}"` key formatting. -/
def pLabel (p : ℕ) : String :=
  if p < 10 then "p0" ++ toString p else "p" ++ toString p

/-- Embeds `np.percentile(samples, p)` with linear interpolation (only applied to
non-empty sample lists; the `getD` default is never reached there). -/
noncomputable def npPercentile (samples : List ℝ) (p : ℕ) : ℝ :=
  let sorted := sortedR samples
  let n := sorted.length
  let k : ℝ := (p : ℝ) / 100 * ((n : ℝ) - 1)
  let i : ℤ := ⌊k⌋
  let lo := sorted.getD i.toNat 0
  let hi := sorted.getD (min (i.toNat + 1) (n - 1)) 0
  lo + (k - (i : ℝ)) * (hi - lo)

/-- Embeds `StatisticalAnalyzer.calculate_percentiles`. -/
noncomputable def calculate_percentiles (samples : List ℝ) : List (String × Option ℝ) :=
  if samples.isEmpty then percentileLevels.map (fun p => (pLabel p, none))
  else percentileLevels.map (fun p => (pLabel p, some (npPercentile samples p)))

noncomputable def statMean (l : List ℝ) : ℝ := l.sum / l.length

/-- Embeds `np.median`: middle element, or mean of the two middle elements. -/
noncomputable def statMedian (l : List ℝ) : ℝ :=
  let s := sortedR l
  if s.length % 2 = 1 then s.getD (s.length / 2) 0
  else (s.getD (s.length / 2 - 1) 0 + s.getD (s.length / 2) 0) / 2

/-- Embeds `np.var` (population variance). -/
noncomputable def statVar (l : List ℝ) : ℝ :=
  statMean (l.map (fun x => (x - statMean l) ^ 2))

/-- Embeds `np.std` (population standard deviation). -/
noncomputable def statStd (l : List ℝ) : ℝ := Real.sqrt (statVar l)

/-- Embeds `StatisticalAnalyzer._calculate_skewness`. -/
noncomputable def statSkewness (l : List ℝ) : ℝ :=
  if l.length < 3 then 0
  else if statStd l = 0 then 0
  else statMean (l.map (fun x => ((x - statMean l) / statStd l) ^ 3))

/-- Embeds `StatisticalAnalyzer._calculate_kurtosis` (excess kurtosis). -/
noncomputable def statKurtosis (l : List ℝ) : ℝ :=
  if l.length < 4 then 0
  else if statStd l = 0 then 0
  else statMean (l.map (fun x => ((x - statMean l) / statStd l) ^ 4)) - 3

/-- Embeds `np.min` (only applied to non-empty lists). -/
noncomputable def listMinR (l : List ℝ) : ℝ :=
  match l with
  | [] => 0
  | a :: r => r.foldl min a

/-- Embeds `np.max` (only applied to non-empty lists). -/
noncomputable def listMaxR (l : List ℝ) : ℝ :=
  match l with
  | [] => 0
  | a :: r => r.foldl max a

/-- Embeds `StatisticalAnalyzer.calculate_comprehensive_statistics`: an empty
sample list short-circuits to the empty mapping. -/
noncomputable def calculate_comprehensive_statistics (samples : List ℝ) :
    List (String × ℝ) :=
  if samples.isEmpty then []
  else
    [("mean", statMean samples), ("median", statMedian samples),
     ("std", statStd samples), ("variance", statVar samples),
     ("skewness", statSkewness samples), ("kurtosis", statKurtosis samples),
     ("min", listMinR samples), ("max", listMaxR samples),
     ("range", listMaxR samples - listMinR samples),
     ("iqr", npPercentile samples 75 - npPercentile samples 25)]

/-- C8: an empty sample list raises no error — `calculate_percentiles`
returns all nine percentile keys (`p01` … `p99`) mapped to `None`, and
`calculate_comprehensive_statistics` returns the empty mapping (no NaN
values). -/
theorem empty_samples_all_null :
    calculate_percentiles ([] : List ℝ)
      = [("p01", none), ("p05", none), ("p10", none), ("p25", none), ("p50", none),
         ("p75", none), ("p90", none), ("p95", none), ("p99", none)]
    ∧ calculate_comprehensive_statistics ([] : List ℝ) = [] := by
  constructor
  · rfl
  · rfl

end RunwayGuard
